import Mathlib

/-!
Verification of the multi-tenant conversation/document state machine of the
project-planner service (`src/api/main.py`, `src/database/database.py`,
`src/naii_agents/tools.py`), as a shallow embedding: each SQL table becomes a
Lean list kept in insertion (rowid) order, each CRUD method becomes a pure
function from store to store, wall-clock timestamps become explicit `Nat`
arguments, and every fallible operation returns its Python boolean result next
to the updated store.
-/

/-- Row of the `projects` table (`database.py`, class `Project`). -/
structure Project where
  project_id : String
  created_at_ts : Nat
  updated_at_ts : Nat
deriving DecidableEq

/-- Row of the `documents` table (`database.py`, class `Document`). -/
structure Document where
  document_id : String
  content : String
  updated_at_ts : Nat
  project_id : String
deriving DecidableEq

/-- Row of the `sessions` table (`database.py`, class `UserSession`). -/
structure UserSession where
  session_id : String
  project_id : String
  user_name : Option String
  joined_at_ts : Nat
  last_activity_ts : Nat
  is_active : Bool
deriving DecidableEq

/-- One element of a conversation's JSON `messages` column: the dicts
`{"role": .., "content": .., "timestamp": ..}` built by
`ConversationCRUD.add_message`. -/
structure Message where
  role : String
  content : String
  timestamp : Nat
deriving DecidableEq

/-- Row of the `conversations` table (`database.py`, class `Conversation`). -/
structure Conversation where
  conversation_id : String
  project_id : String
  session_id : Option String
  timestamp_ts : Nat
  messages : List Message
  is_active : Bool
deriving DecidableEq

/-- The persistence facade (`database.py`, class `ProjectDatabase`): it exposes
exactly four stores — `projects`, `documents`, `sessions`, `conversations`.
There is deliberately no `uploaded_documents` and no `invitations` field,
mirroring the source class, whose `__init__` creates only these four CRUD
objects. -/
structure ProjectDatabase where
  projects : List Project
  documents : List Document
  sessions : List UserSession
  conversations : List Conversation
deriving DecidableEq

namespace ProjectCRUD

/-- `ProjectCRUD.get`: primary-key lookup. -/
def get (db : ProjectDatabase) (project_id : String) : Option Project :=
  db.projects.find? (fun p => p.project_id == project_id)

/-- `ProjectCRUD.create`: inserts a new row; a duplicate primary key makes the
commit raise, which the method catches and turns into `False` with no row
written. -/
def create (db : ProjectDatabase) (project_id : String) (now : Nat) :
    Bool × ProjectDatabase :=
  if db.projects.any (fun p => p.project_id == project_id) then
    (false, db)
  else
    (true, { db with projects := db.projects ++ [⟨project_id, now, now⟩] })

/-- `ProjectCRUD.delete`: removes the row if present, else returns `False`. -/
def delete (db : ProjectDatabase) (project_id : String) :
    Bool × ProjectDatabase :=
  if db.projects.any (fun p => p.project_id == project_id) then
    (true, { db with projects := db.projects.filter (fun p => !(p.project_id == project_id)) })
  else
    (false, db)

end ProjectCRUD

namespace DocumentCRUD

/-- `DocumentCRUD.get`: primary-key lookup. -/
def get (db : ProjectDatabase) (document_id : String) : Option Document :=
  db.documents.find? (fun d => d.document_id == document_id)

/-- `DocumentCRUD.create`: inserts a new row; duplicate primary key yields
`False` with no row written. -/
def create (db : ProjectDatabase) (document_id content project_id : String)
    (now : Nat) : Bool × ProjectDatabase :=
  if db.documents.any (fun d => d.document_id == document_id) then
    (false, db)
  else
    (true, { db with documents := db.documents ++ [⟨document_id, content, now, project_id⟩] })

/-- `DocumentCRUD.update_content`: overwrites `content` and `updated_at_ts` of
the row with this primary key, returning whether the row existed. -/
def update_content (db : ProjectDatabase) (document_id content : String)
    (now : Nat) : Bool × ProjectDatabase :=
  if (get db document_id).isSome then
    (true, { db with documents := db.documents.map (fun d =>
      if d.document_id == document_id then
        { d with content := content, updated_at_ts := now }
      else d) })
  else
    (false, db)

end DocumentCRUD

namespace SessionCRUD

/-- `SessionCRUD.get`: primary-key lookup. -/
def get (db : ProjectDatabase) (session_id : String) : Option UserSession :=
  db.sessions.find? (fun s => s.session_id == session_id)

/-- `SessionCRUD.create`: inserts a new row (defaults: `is_active = True`,
`joined_at_ts = last_activity_ts = now`); duplicate primary key yields `False`
with no row written. -/
def create (db : ProjectDatabase) (session_id project_id : String)
    (user_name : Option String) (now : Nat) : Bool × ProjectDatabase :=
  if db.sessions.any (fun s => s.session_id == session_id) then
    (false, db)
  else
    (true, { db with sessions := db.sessions ++ [⟨session_id, project_id, user_name, now, now, true⟩] })

/-- `SessionCRUD.update_activity`: sets `last_activity_ts` of the row with this
primary key, returning whether the row existed. -/
def update_activity (db : ProjectDatabase) (session_id : String) (now : Nat) :
    Bool × ProjectDatabase :=
  if (get db session_id).isSome then
    (true, { db with sessions := db.sessions.map (fun s =>
      if s.session_id == session_id then { s with last_activity_ts := now } else s) })
  else
    (false, db)

/-- `SessionCRUD.set_inactive`: clears `is_active` of the row with this primary
key, returning whether the row existed. -/
def set_inactive (db : ProjectDatabase) (session_id : String) :
    Bool × ProjectDatabase :=
  if (get db session_id).isSome then
    (true, { db with sessions := db.sessions.map (fun s =>
      if s.session_id == session_id then { s with is_active := false } else s) })
  else
    (false, db)

/-- `SessionCRUD.get_active_by_project`: all rows with this project id and
`is_active = True`, in table order. -/
def get_active_by_project (db : ProjectDatabase) (project_id : String) :
    List UserSession :=
  db.sessions.filter (fun s => s.project_id == project_id && s.is_active)

end SessionCRUD

namespace ConversationCRUD

/-- `ConversationCRUD.get`: primary-key lookup. -/
def get (db : ProjectDatabase) (conversation_id : String) : Option Conversation :=
  db.conversations.find? (fun c => c.conversation_id == conversation_id)

/-- `ConversationCRUD.create`: inserts a new row (defaults: `is_active = True`,
`timestamp_ts = now`, `messages = messages or []`); duplicate primary key
yields `False` with no row written. -/
def create (db : ProjectDatabase) (conversation_id project_id : String)
    (session_id : Option String) (messages : List Message) (now : Nat) :
    Bool × ProjectDatabase :=
  if db.conversations.any (fun c => c.conversation_id == conversation_id) then
    (false, db)
  else
    (true, { db with conversations :=
      db.conversations ++ [⟨conversation_id, project_id, session_id, now, messages, true⟩] })

/-- `ConversationCRUD.add_message`: appends
`{"role": role, "content": content, "timestamp": now}` to the end of the
`messages` list of the row with this primary key, returning whether the row
existed. -/
def add_message (db : ProjectDatabase) (conversation_id role content : String)
    (now : Nat) : Bool × ProjectDatabase :=
  if (get db conversation_id).isSome then
    (true, { db with conversations := db.conversations.map (fun c =>
      if c.conversation_id == conversation_id then
        { c with messages := c.messages ++ [⟨role, content, now⟩] }
      else c) })
  else
    (false, db)

/-- `ConversationCRUD.get_by_project`: all rows with this project id, in table
(insertion = creation) order; the source query has no ORDER BY and SQLite
returns the rows of this filter scan in rowid order. -/
def get_by_project (db : ProjectDatabase) (project_id : String) :
    List Conversation :=
  db.conversations.filter (fun c => c.project_id == project_id)

/-- `ConversationCRUD.clear_messages`: empties the `messages` list of the row
with this primary key, returning whether the row existed. -/
def clear_messages (db : ProjectDatabase) (conversation_id : String) :
    Bool × ProjectDatabase :=
  if (get db conversation_id).isSome then
    (true, { db with conversations := db.conversations.map (fun c =>
      if c.conversation_id == conversation_id then { c with messages := [] } else c) })
  else
    (false, db)

end ConversationCRUD

/-- The ensure-project step at the top of the `/join` handler
(`main.py`, `join_project`): `if not db.projects.get(id): db.projects.create(id)`.
The boolean result of `create` is discarded by the handler. -/
def ensure_project (db : ProjectDatabase) (project_id : String) (now : Nat) :
    ProjectDatabase :=
  if (ProjectCRUD.get db project_id).isNone then
    (ProjectCRUD.create db project_id now).2
  else
    db

/-- Number of `projects` rows carrying a given id. -/
def countProject (db : ProjectDatabase) (project_id : String) : Nat :=
  (db.projects.filter (fun p => p.project_id == project_id)).length

theorem ensure_project_get_isSome (db : ProjectDatabase) (pid : String) (t : Nat) :
    (ProjectCRUD.get (ensure_project db pid t) pid).isSome := by
  rcases hget : ProjectCRUD.get db pid with _ | p
  · have hget' : db.projects.find? (fun q => q.project_id == pid) = none := hget
    have hany : db.projects.any (fun p => p.project_id == pid) = false := by
      rw [List.any_eq_false]
      intro x hx
      simpa using List.find?_eq_none.mp hget' x hx
    simp [ensure_project, hget, ProjectCRUD.create, hany, ProjectCRUD.get,
      List.find?_append, hget', List.find?]
  · simp [ensure_project, hget]

theorem ensure_project_idem (db : ProjectDatabase) (pid : String) (t1 t2 : Nat) :
    ensure_project (ensure_project db pid t1) pid t2 = ensure_project db pid t1 := by
  have h := ensure_project_get_isSome db pid t1
  rcases hcase : ProjectCRUD.get (ensure_project db pid t1) pid with _ | p
  · rw [hcase] at h
    simp at h
  · have hunfold : ensure_project (ensure_project db pid t1) pid t2 =
        if (ProjectCRUD.get (ensure_project db pid t1) pid).isNone then
          (ProjectCRUD.create (ensure_project db pid t1) pid t2).2
        else ensure_project db pid t1 := rfl
    rw [hunfold, hcase]
    simp

/-- C7: the ensure-project step is idempotent.  Running it once and then any
number of further times (with arbitrary later clock values) leaves the store
exactly as after the first run — so `created_at_ts` of the record never
changes after the first call and no later call errors or modifies anything —
and, provided the table held at most one row for the id (the primary-key
invariant), exactly one row for the id exists afterwards. -/
theorem ensure_project_idempotent (db : ProjectDatabase) (pid : String)
    (t0 : Nat) (ts : List Nat) (h : countProject db pid ≤ 1) :
    ts.foldl (fun d t => ensure_project d pid t) (ensure_project db pid t0)
        = ensure_project db pid t0
    ∧ countProject (ensure_project db pid t0) pid = 1 := by
  constructor
  · induction ts with
    | nil => rfl
    | cons t ts ih => simpa [ensure_project_idem] using ih
  · rcases hget : ProjectCRUD.get db pid with _ | p
    · have hget' : db.projects.find? (fun q => q.project_id == pid) = none := hget
      have hany : db.projects.any (fun p => p.project_id == pid) = false := by
        rw [List.any_eq_false]
        intro x hx
        simpa using List.find?_eq_none.mp hget' x hx
      have hfilter : db.projects.filter (fun p => p.project_id == pid) = [] := by
        rw [List.filter_eq_nil_iff]
        intro p hp
        simpa using List.find?_eq_none.mp hget' p hp
      simp [ensure_project, hget, ProjectCRUD.create, hany, countProject,
        List.filter_append, hfilter, List.filter]
    · have hget' : db.projects.find? (fun q => q.project_id == pid) = some p := hget
      have hmem : p ∈ db.projects := List.mem_of_find?_eq_some hget'
      have hp : (p.project_id == pid) = true := by
        simpa using List.find?_some hget'
      have hpos : 0 < countProject db pid := by
        rw [countProject, List.length_pos_iff_ne_nil]
        intro hnil
        exact List.filter_eq_nil_iff.mp hnil p hmem hp
      have hone : countProject db pid = 1 := le_antisymm h hpos
      simpa [ensure_project, hget] using hone

/-- Witness for C7 at a concrete store. -/
theorem ensure_project_idempotent_witness :
    countProject ⟨[], [], [], []⟩ "p1" ≤ 1
    ∧ ([7, 9].foldl (fun d t => ensure_project d "p1" t)
          (ensure_project ⟨[], [], [], []⟩ "p1" 3)
        = ensure_project ⟨[], [], [], []⟩ "p1" 3
      ∧ countProject (ensure_project ⟨[], [], [], []⟩ "p1" 3) "p1" = 1) :=
  ⟨by decide, ensure_project_idempotent ⟨[], [], [], []⟩ "p1" 3 [7, 9] (by decide)⟩

/-! Generic facts about the row-update pattern shared by all CRUD update
methods: mapping `if pred a then u a else a` over a table, where the update
`u` does not change the primary-key column that `pred` inspects. -/

theorem find?_map_congr {α : Type} (u : α → α) (pred : α → Bool)
    (hpred : ∀ a, pred (u a) = pred a) (l : List α) :
    (l.map u).find? pred = (l.find? pred).map u := by
  induction l with
  | nil => simp
  | cons a l ih =>
    cases h : pred a
    · rw [List.map_cons, List.find?_cons_of_neg _ (by rw [hpred]; simp [h]),
        List.find?_cons_of_neg _ (by simp [h]), ih]
    · rw [List.map_cons, List.find?_cons_of_pos _ (by rw [hpred]; exact h),
        List.find?_cons_of_pos _ h, Option.map_some']

theorem map_ite_eq_self_of_find?_none {α : Type} (u : α → α) (pred : α → Bool)
    (l : List α) (h : l.find? pred = none) :
    l.map (fun a => if pred a then u a else a) = l := by
  induction l with
  | nil => simp
  | cons a l ih =>
    cases hpa : pred a
    · rw [List.find?_cons_of_neg _ (by simp [hpa])] at h
      simp [hpa, ih h]
    · rw [List.find?_cons_of_pos _ hpa] at h
      cases h

/-- `add_message` on an existing conversation appends one message to the end
of that conversation's list and touches nothing else about the row. -/
theorem add_message_get (db : ProjectDatabase) (cid role content : String)
    (now : Nat) (conv : Conversation)
    (h : ConversationCRUD.get db cid = some conv) :
    ConversationCRUD.get (ConversationCRUD.add_message db cid role content now).2 cid
      = some { conv with messages := conv.messages ++ [⟨role, content, now⟩] } := by
  have h' : db.conversations.find? (fun c => c.conversation_id == cid) = some conv := h
  have hpred : ∀ c : Conversation,
      ((if c.conversation_id == cid then
          { c with messages := c.messages ++ [⟨role, content, now⟩] }
        else c).conversation_id == cid) = (c.conversation_id == cid) := by
    intro c
    by_cases hc : (c.conversation_id == cid) = true <;> simp [hc]
  have hconv : (conv.conversation_id == cid) = true := by
    simpa using List.find?_some h'
  have hsome : (db.conversations.find? (fun c => c.conversation_id == cid)).isSome = true := by
    rw [h']; rfl
  simp only [ConversationCRUD.add_message, ConversationCRUD.get, hsome, eq_self_iff_true,
    if_true]
  rw [find?_map_congr _ _ hpred, h', Option.map_some']
  simp [hconv]

/-- C8: within one conversation, appending m1, m2, m3 (server clock
non-decreasing across the three calls) extends the stored message list by
exactly `[m1, m2, m3]` at the end — previously stored messages are neither
reordered, dropped nor duplicated, reading back a conversation that started
empty yields exactly m1, m2, m3 in order — and the three server-assigned
timestamps are non-decreasing. -/
theorem add_message_append_order (db : ProjectDatabase)
    (cid r1 c1 r2 c2 r3 c3 : String) (t1 t2 t3 : Nat) (conv : Conversation)
    (h : ConversationCRUD.get db cid = some conv)
    (h12 : t1 ≤ t2) (h23 : t2 ≤ t3) :
    ConversationCRUD.get
        ((ConversationCRUD.add_message
          ((ConversationCRUD.add_message
            ((ConversationCRUD.add_message db cid r1 c1 t1).2)
            cid r2 c2 t2).2)
          cid r3 c3 t3).2) cid
      = some { conv with messages :=
          conv.messages ++ [⟨r1, c1, t1⟩, ⟨r2, c2, t2⟩, ⟨r3, c3, t3⟩] }
    ∧ List.Chain' (· ≤ ·) [t1, t2, t3] := by
  refine ⟨?_, by simp [h12, h23]⟩
  have s1 := add_message_get db cid r1 c1 t1 conv h
  have s2 := add_message_get _ cid r2 c2 t2 _ s1
  have s3 := add_message_get _ cid r3 c3 t3 _ s2
  rw [s3]
  simp

theorem foldl_update_eq_map {α : Type} (key : α → String) (u : α → α)
    (hkey : ∀ a, key (u a) = key a) (ks : List String) (hks : ks.Nodup)
    (l : List α) :
    ks.foldl (fun acc k => acc.map (fun a => if key a == k then u a else a)) l
      = l.map (fun a => if key a ∈ ks then u a else a) := by
  induction ks generalizing l with
  | nil => simp
  | cons k0 rest ih =>
    rw [List.foldl_cons, ih (List.Nodup.of_cons hks), List.map_map]
    apply List.map_congr_left
    intro a _
    simp only [Function.comp_apply]
    by_cases h0 : (key a == k0) = true
    · have hk0 : key a = k0 := by simpa using h0
      have hnot : k0 ∉ rest := (List.nodup_cons.mp hks).1
      have hrest : key (u a) ∉ rest := by rw [hkey, hk0]; exact hnot
      rw [if_pos h0, if_neg hrest, if_pos (List.mem_cons.mpr (Or.inl hk0))]
    · have hk0 : ¬ key a = k0 := by simpa using h0
      rw [if_neg h0]
      by_cases hr : key a ∈ rest
      · rw [if_pos hr, if_pos (List.mem_cons.mpr (Or.inr hr))]
      · rw [if_neg hr, if_neg (by simp [List.mem_cons, hk0, hr])]

theorem foldl_update_by_filter {α : Type} (key : α → String) (u : α → α)
    (p : α → Bool) (hkey : ∀ a, key (u a) = key a) (l : List α)
    (hN : (l.map key).Nodup) :
    ((l.filter p).map key).foldl
        (fun acc k => acc.map (fun a => if key a == k then u a else a)) l
      = l.map (fun a => if p a then u a else a) := by
  have hks : ((l.filter p).map key).Nodup :=
    List.Nodup.sublist ((List.filter_sublist l).map key) hN
  rw [foldl_update_eq_map key u hkey _ hks l]
  apply List.map_congr_left
  intro a ha
  by_cases hpa : p a = true
  · have hmem : key a ∈ (l.filter p).map key :=
      List.mem_map_of_mem _ (List.mem_filter.mpr ⟨ha, hpa⟩)
    simp [hpa, hmem]
  · have hmem : key a ∉ (l.filter p).map key := by
      intro hmem
      rcases List.mem_map.mp hmem with ⟨b, hb, hkb⟩
      have hbeq : b = a :=
        List.inj_on_of_nodup_map hN (List.mem_filter.mp hb).1 ha hkb
      rw [hbeq] at hb
      exact hpa (List.mem_filter.mp hb).2
    simp [hpa, hmem]

theorem clear_messages_eq_map (db : ProjectDatabase) (cid : String) :
    (ConversationCRUD.clear_messages db cid).2
      = { db with conversations := db.conversations.map (fun c =>
          if c.conversation_id == cid then { c with messages := [] } else c) } := by
  unfold ConversationCRUD.clear_messages
  split
  · rfl
  · rename_i hguard
    have hnone : db.conversations.find? (fun c => c.conversation_id == cid) = none := by
      have := Option.not_isSome_iff_eq_none.mp (by simpa using hguard)
      exact this
    rw [map_ite_eq_self_of_find?_none _ _ _ hnone]

theorem set_inactive_eq_map (db : ProjectDatabase) (sid : String) :
    (SessionCRUD.set_inactive db sid).2
      = { db with sessions := db.sessions.map (fun s =>
          if s.session_id == sid then { s with is_active := false } else s) } := by
  unfold SessionCRUD.set_inactive
  split
  · rfl
  · rename_i hguard
    have hnone : db.sessions.find? (fun s => s.session_id == sid) = none := by
      have := Option.not_isSome_iff_eq_none.mp (by simpa using hguard)
      exact this
    rw [map_ite_eq_self_of_find?_none _ _ _ hnone]

theorem update_content_eq_map (db : ProjectDatabase) (document_id content : String)
    (now : Nat) :
    (DocumentCRUD.update_content db document_id content now).2
      = { db with documents := db.documents.map (fun d =>
          if d.document_id == document_id then
            { d with content := content, updated_at_ts := now }
          else d) } := by
  unfold DocumentCRUD.update_content
  split
  · rfl
  · rename_i hguard
    have hnone : db.documents.find? (fun d => d.document_id == document_id) = none := by
      have := Option.not_isSome_iff_eq_none.mp (by simpa using hguard)
      exact this
    rw [map_ite_eq_self_of_find?_none _ _ _ hnone]

theorem foldl_clear_conversations (convs : List Conversation) (db : ProjectDatabase) :
    convs.foldl (fun d c => (ConversationCRUD.clear_messages d c.conversation_id).2) db
      = { db with conversations := ((convs.map (fun c => c.conversation_id)).foldl
            (fun acc k => acc.map (fun c =>
              if c.conversation_id == k then { c with messages := [] } else c))
            db.conversations) } := by
  induction convs generalizing db with
  | nil => simp
  | cons c cs ih =>
    rw [List.foldl_cons, clear_messages_eq_map, ih]
    simp

theorem foldl_set_inactive_sessions (sess : List UserSession) (db : ProjectDatabase) :
    sess.foldl (fun d s => (SessionCRUD.set_inactive d s.session_id).2) db
      = { db with sessions := ((sess.map (fun s => s.session_id)).foldl
            (fun acc k => acc.map (fun s =>
              if s.session_id == k then { s with is_active := false } else s))
            db.sessions) } := by
  induction sess generalizing db with
  | nil => simp
  | cons s ss ih =>
    rw [List.foldl_cons, set_inactive_eq_map, ih]
    simp

/-- The `DELETE /projects/{project_id}` handler (`main.py`, `delete_project`):
clear each project conversation's messages, blank the derived document's
content, set the project's active sessions inactive, then delete the project
row; when that row delete fails (project absent) the handler raises
`HTTPException(404)`, re-raised unchanged by its `except HTTPException` arm.
The `cleanup_chat_sessions_for_project` step touches only an external
agent-chat sqlite file, never these stores, and the handler continues even if
it fails. -/
def delete_project (db : ProjectDatabase) (project_id : String) (now : Nat) :
    Nat × ProjectDatabase :=
  let convs := ConversationCRUD.get_by_project db project_id
  let db1 := convs.foldl
    (fun d c => (ConversationCRUD.clear_messages d c.conversation_id).2) db
  let db2 := (DocumentCRUD.update_content db1 ("doc_" ++ project_id) "" now).2
  let sess := SessionCRUD.get_active_by_project db2 project_id
  let db3 := sess.foldl (fun d s => (SessionCRUD.set_inactive d s.session_id).2) db2
  let r := ProjectCRUD.delete db3 project_id
  if r.1 then (200, r.2) else (404, r.2)

/-- A concrete store: project "p" with a document holding text "x", an active
session "s" and a conversation "c" holding one message. -/
def dbDeleteDemo : ProjectDatabase :=
  ⟨[⟨"p", 1, 1⟩], [⟨"doc_p", "x", 1, "p"⟩], [⟨"s", "p", some "alice", 1, 1, true⟩],
    [⟨"c", "p", some "s", 1, [⟨"user", "hi", 1⟩], true⟩]⟩

/-- Counterexample to C2 as stated: deleting project "p" answers 200 and
`get_project` afterwards is absent, but the session row, the document row and
the conversation row all still exist in their stores — they are deactivated,
blanked and message-cleared, not removed. -/
theorem delete_project_counterexample :
    (delete_project dbDeleteDemo "p" 9).1 = 200
    ∧ ProjectCRUD.get (delete_project dbDeleteDemo "p" 9).2 "p" = none
    ∧ (SessionCRUD.get (delete_project dbDeleteDemo "p" 9).2 "s").isSome = true
    ∧ (DocumentCRUD.get (delete_project dbDeleteDemo "p" 9).2 "doc_p").isSome = true
    ∧ (ConversationCRUD.get (delete_project dbDeleteDemo "p" 9).2 "c").isSome = true := by
  decide

/-- C2 (amended): deleting an existing project (with primary-key-unique
conversation and session tables) answers 200 and removes the project row, so
`get_project` afterwards returns absent; the project's conversations are kept
with their messages cleared, its sessions are kept with active ones
deactivated, the derived document row is kept with its content blanked, and no
upload store exists to be touched. -/
theorem delete_project_existing (db : ProjectDatabase) (pid : String) (now : Nat)
    (hproj : (ProjectCRUD.get db pid).isSome = true)
    (hconvN : (db.conversations.map (fun c => c.conversation_id)).Nodup)
    (hsessN : (db.sessions.map (fun s => s.session_id)).Nodup) :
    (delete_project db pid now).1 = 200
    ∧ ProjectCRUD.get (delete_project db pid now).2 pid = none
    ∧ (delete_project db pid now).2.projects
        = db.projects.filter (fun p => !(p.project_id == pid))
    ∧ (delete_project db pid now).2.conversations
        = db.conversations.map (fun c =>
            if c.project_id == pid then { c with messages := [] } else c)
    ∧ (delete_project db pid now).2.sessions
        = db.sessions.map (fun s =>
            if s.project_id == pid && s.is_active then { s with is_active := false }
            else s)
    ∧ (delete_project db pid now).2.documents
        = db.documents.map (fun d =>
            if d.document_id == "doc_" ++ pid then
              { d with content := "", updated_at_ts := now }
            else d) := by
  have h1 : (ConversationCRUD.get_by_project db pid).foldl
      (fun d c => (ConversationCRUD.clear_messages d c.conversation_id).2) db
      = { db with conversations := (db.conversations.map (fun c =>
          if c.project_id == pid then { c with messages := [] } else c)) } := by
    rw [foldl_clear_conversations]
    exact congrArg (fun x => { db with conversations := x })
      (foldl_update_by_filter (fun c : Conversation => c.conversation_id)
        (fun c => { c with messages := [] }) (fun c => c.project_id == pid)
        (fun _ => rfl) db.conversations hconvN)
  have hany : db.projects.any (fun p => p.project_id == pid) = true := by
    rcases Option.isSome_iff_exists.mp hproj with ⟨pr, hpr⟩
    have hpr' : db.projects.find? (fun q => q.project_id == pid) = some pr := hpr
    exact List.any_eq_true.mpr ⟨pr, List.mem_of_find?_eq_some hpr',
      by simpa using List.find?_some hpr'⟩
  have hfinal : delete_project db pid now
      = (200, ⟨db.projects.filter (fun p => !(p.project_id == pid)),
          db.documents.map (fun d =>
            if d.document_id == "doc_" ++ pid then
              { d with content := "", updated_at_ts := now }
            else d),
          db.sessions.map (fun s =>
            if s.project_id == pid && s.is_active then { s with is_active := false }
            else s),
          db.conversations.map (fun c =>
            if c.project_id == pid then { c with messages := [] } else c)⟩) := by
    simp only [delete_project]
    rw [h1, update_content_eq_map]
    dsimp only
    simp only [SessionCRUD.get_active_by_project]
    rw [foldl_set_inactive_sessions]
    dsimp only
    rw [foldl_update_by_filter (fun s : UserSession => s.session_id)
      (fun s => { s with is_active := false })
      (fun s => s.project_id == pid && s.is_active) (fun _ => rfl)
      db.sessions hsessN]
    simp only [ProjectCRUD.delete]
    rw [hany]
    simp
  rw [hfinal]
  refine ⟨rfl, ?_, rfl, rfl, rfl, rfl⟩
  apply List.find?_eq_none.mpr
  intro x hx
  have hxp := (List.mem_filter.mp hx).2
  simpa using hxp

/-- Witness for the amended C2 at the concrete store `dbDeleteDemo`. -/
theorem delete_project_existing_witness :
    ((ProjectCRUD.get dbDeleteDemo "p").isSome = true
      ∧ (dbDeleteDemo.conversations.map (fun c => c.conversation_id)).Nodup
      ∧ (dbDeleteDemo.sessions.map (fun s => s.session_id)).Nodup)
    ∧ ((delete_project dbDeleteDemo "p" 9).1 = 200
      ∧ ProjectCRUD.get (delete_project dbDeleteDemo "p" 9).2 "p" = none
      ∧ (delete_project dbDeleteDemo "p" 9).2.projects
          = dbDeleteDemo.projects.filter (fun p => !(p.project_id == "p"))
      ∧ (delete_project dbDeleteDemo "p" 9).2.conversations
          = dbDeleteDemo.conversations.map (fun c =>
              if c.project_id == "p" then { c with messages := [] } else c)
      ∧ (delete_project dbDeleteDemo "p" 9).2.sessions
          = dbDeleteDemo.sessions.map (fun s =>
              if s.project_id == "p" && s.is_active then { s with is_active := false }
              else s)
      ∧ (delete_project dbDeleteDemo "p" 9).2.documents
          = dbDeleteDemo.documents.map (fun d =>
              if d.document_id == "doc_" ++ "p" then
                { d with content := "", updated_at_ts := 9 }
              else d)) :=
  ⟨⟨by decide, by decide, by decide⟩,
    delete_project_existing dbDeleteDemo "p" 9 (by decide) (by decide) (by decide)⟩

/-- A concrete store holding no project row at all, but one conversation whose
`project_id` is "p" (reachable: the `/chat` handler creates conversations for
any requested project id without checking that the project exists). -/
def dbOrphanConv : ProjectDatabase :=
  ⟨[], [], [], [⟨"c", "p", none, 1, [⟨"user", "hi", 1⟩], true⟩]⟩

/-- Counterexample to C3 as stated: deleting the absent project "p" reports
404, yet the stores were mutated before the failure — the orphan
conversation's messages were cleared.  The cascade is not all-or-nothing. -/
theorem delete_project_not_atomic_counterexample :
    (delete_project dbOrphanConv "p" 9).1 = 404
    ∧ ¬ ((delete_project dbOrphanConv "p" 9).2 = dbOrphanConv)
    ∧ (ConversationCRUD.get (delete_project dbOrphanConv "p" 9).2 "c").map
        (fun c => c.messages) = some [] := by
  decide

/-- C3 (amended): deleting a project id that does not exist fails with 404 and
leaves every store unchanged *provided* nothing scoped to that id exists
(no conversations, no derived document, no active sessions); when such
orphaned rows exist they are mutated before the 404 is raised, so the cascade
is not all-or-nothing in general. -/
theorem delete_project_absent (db : ProjectDatabase) (pid : String) (now : Nat)
    (hproj : ProjectCRUD.get db pid = none)
    (hconv : ConversationCRUD.get_by_project db pid = [])
    (hdoc : DocumentCRUD.get db ("doc_" ++ pid) = none)
    (hsess : SessionCRUD.get_active_by_project db pid = []) :
    delete_project db pid now = (404, db) := by
  have hany : db.projects.any (fun q => q.project_id == pid) = false := by
    rw [List.any_eq_false]
    intro x hx
    simpa using List.find?_eq_none.mp
      (show db.projects.find? (fun q => q.project_id == pid) = none from hproj) x hx
  have hdoc' : db.documents.find? (fun d => d.document_id == "doc_" ++ pid) = none := hdoc
  have hdocs : db.documents.map (fun d =>
      if d.document_id == "doc_" ++ pid then
        { d with content := "", updated_at_ts := now }
      else d) = db.documents :=
    map_ite_eq_self_of_find?_none _ _ _ hdoc'
  simp only [delete_project, hconv, List.foldl_nil]
  rw [update_content_eq_map, hdocs]
  have heta : { db with documents := db.documents } = db := rfl
  rw [heta, hsess, List.foldl_nil]
  simp only [ProjectCRUD.delete]
  rw [hany]
  simp

/-- Witness for the amended C3 at the empty store. -/
theorem delete_project_absent_witness :
    (ProjectCRUD.get ⟨[], [], [], []⟩ "p" = none
      ∧ ConversationCRUD.get_by_project ⟨[], [], [], []⟩ "p" = []
      ∧ DocumentCRUD.get ⟨[], [], [], []⟩ ("doc_" ++ "p") = none
      ∧ SessionCRUD.get_active_by_project ⟨[], [], [], []⟩ "p" = [])
    ∧ delete_project ⟨[], [], [], []⟩ "p" 5 = (404, ⟨[], [], [], []⟩) :=
  ⟨⟨by decide, by decide, by decide, by decide⟩,
    delete_project_absent ⟨[], [], [], []⟩ "p" 5 (by decide) (by decide)
      (by decide) (by decide)⟩

/-- Response of the `/join` handler; `status` is the HTTP status code (500 for
the handler's raised `HTTPException`). -/
structure JoinOutcome where
  status : Nat
  sessionId : String
  projectId : String
  message : String
deriving DecidableEq

/-- The fall-through part of `join_project` (`main.py` lines 529-551): when no
active session with this id exists — deactivate duplicate active sessions of
the same display name, then create the session row; a failing create raises
`HTTPException(500, "Failed to join project")`, which the handler's blanket
`except Exception` re-raises as status 500. -/
def join_project_new (db1 : ProjectDatabase) (projectId : String)
    (userName : Option String) (session_id : String) (now : Nat) :
    JoinOutcome × ProjectDatabase :=
  let db2 :=
    match userName with
    | some u =>
      (SessionCRUD.get_active_by_project db1 projectId).foldl
        (fun d s =>
          if s.user_name == some u then (SessionCRUD.set_inactive d s.session_id).2
          else d) db1
    | none => db1
  let r := SessionCRUD.create db2 session_id projectId userName now
  if r.1 then
    (⟨200, session_id, projectId, "Successfully joined project " ++ projectId⟩, r.2)
  else
    (⟨500, session_id, projectId, "Failed to join project"⟩, r.2)

/-- The `/join` handler (`main.py`, `join_project`): ensure the project, then —
if the session id already exists and is active — treat the call as a rejoin:
update activity only when a (truthy) different user name was sent, and answer
with the *requested* project id while leaving the stored row untouched
otherwise.  A Python `userName` of `None` or `""` is falsy; the absent case is
modelled by `none`. -/
def join_project (db : ProjectDatabase) (projectId : String)
    (userName : Option String) (session_id : String) (now : Nat) :
    JoinOutcome × ProjectDatabase :=
  let db1 := ensure_project db projectId now
  match SessionCRUD.get db1 session_id with
  | some s =>
    if s.is_active then
      let db2 :=
        match userName with
        | some u =>
          if s.user_name == some u then db1
          else (SessionCRUD.update_activity db1 session_id now).2
        | none => db1
      (⟨200, session_id, projectId, "Rejoined project " ++ projectId⟩, db2)
    else join_project_new db1 projectId userName session_id now
  | none => join_project_new db1 projectId userName session_id now

theorem ensure_project_sessions (db : ProjectDatabase) (pid : String) (t : Nat) :
    (ensure_project db pid t).sessions = db.sessions := by
  unfold ensure_project ProjectCRUD.create
  split
  · split <;> rfl
  · rfl

theorem update_activity_get (db : ProjectDatabase) (sid : String) (now : Nat)
    (s : UserSession) (h : SessionCRUD.get db sid = some s) :
    SessionCRUD.get (SessionCRUD.update_activity db sid now).2 sid
      = some { s with last_activity_ts := now } := by
  have h' : db.sessions.find? (fun x => x.session_id == sid) = some s := h
  have hpred : ∀ x : UserSession,
      ((if x.session_id == sid then { x with last_activity_ts := now }
        else x).session_id == sid) = (x.session_id == sid) := by
    intro x
    by_cases hx : (x.session_id == sid) = true <;> simp [hx]
  have hsid : (s.session_id == sid) = true := by
    simpa using List.find?_some h'
  have hsome : (db.sessions.find? (fun x => x.session_id == sid)).isSome = true := by
    rw [h']; rfl
  simp only [SessionCRUD.update_activity, SessionCRUD.get, hsome, eq_self_iff_true,
    if_true]
  rw [find?_map_congr _ _ hpred, h', Option.map_some']
  simp [hsid]

theorem update_activity_length (db : ProjectDatabase) (sid : String) (now : Nat) :
    (SessionCRUD.update_activity db sid now).2.sessions.length
      = db.sessions.length := by
  unfold SessionCRUD.update_activity
  split <;> simp

/-- Counterexample to C5 as stated: one project "p1" with an active session
"s" (no display name, last activity 5); joining project "p2" with session id
"s" at time 10 answers "rejoined", but the stored row still carries project
"p1" (it is not rebound to "p2") and its `last_activity_ts` is still 5 (not
updated). -/
theorem join_project_rejoin_counterexample :
    ((SessionCRUD.get
        (join_project ⟨[⟨"p1", 1, 1⟩], [], [⟨"s", "p1", none, 5, 5, true⟩], []⟩
          "p2" none "s" 10).2 "s").map (fun x => x.project_id) = some "p1")
    ∧ ¬ ((SessionCRUD.get
        (join_project ⟨[⟨"p1", 1, 1⟩], [], [⟨"s", "p1", none, 5, 5, true⟩], []⟩
          "p2" none "s" 10).2 "s").map (fun x => x.project_id) = some "p2")
    ∧ ((SessionCRUD.get
        (join_project ⟨[⟨"p1", 1, 1⟩], [], [⟨"s", "p1", none, 5, 5, true⟩], []⟩
          "p2" none "s" 10).2 "s").map (fun x => x.last_activity_ts) = some 5) := by
  decide

/-- C5 (amended): joining with an existing *active* session id is treated as a
rejoin and never as an error or a second record — the handler answers 200
"Rejoined", the session table keeps its size — but the stored project binding
is NOT changed to the requested project (it stays at the original one), the
row is entirely untouched when no different display name is supplied, and when
a different display name is supplied only `last_activity_ts` is refreshed. -/
theorem join_project_rejoin (db : ProjectDatabase) (projectId : String)
    (userName : Option String) (session_id : String) (now : Nat) (s : UserSession)
    (hs : SessionCRUD.get db session_id = some s) (hact : s.is_active = true) :
    (join_project db projectId userName session_id now).1.status = 200
    ∧ (join_project db projectId userName session_id now).1.message
        = "Rejoined project " ++ projectId
    ∧ (join_project db projectId userName session_id now).2.sessions.length
        = db.sessions.length
    ∧ (SessionCRUD.get (join_project db projectId userName session_id now).2
        session_id).map (fun x => x.project_id) = some s.project_id
    ∧ ((userName = none ∨ userName = s.user_name) →
        SessionCRUD.get (join_project db projectId userName session_id now).2
          session_id = some s)
    ∧ (∀ u, userName = some u → s.user_name ≠ some u →
        SessionCRUD.get (join_project db projectId userName session_id now).2
          session_id = some { s with last_activity_ts := now }) := by
  have hs1 : SessionCRUD.get (ensure_project db projectId now) session_id = some s := by
    show (ensure_project db projectId now).sessions.find? _ = _
    rw [ensure_project_sessions]
    exact hs
  have hlen1 : (ensure_project db projectId now).sessions.length = db.sessions.length := by
    rw [ensure_project_sessions]
  rcases userName with _ | u
  · have hjoin : join_project db projectId none session_id now
        = (⟨200, session_id, projectId, "Rejoined project " ++ projectId⟩,
            ensure_project db projectId now) := by
      simp [join_project, hs1, hact]
    rw [hjoin]
    refine ⟨rfl, rfl, hlen1, ?_, fun _ => hs1, fun u hu => by cases hu⟩
    rw [hs1]
    rfl
  · by_cases hu : (s.user_name == some u) = true
    · have hueq : s.user_name = some u := by simpa using hu
      have hjoin : join_project db projectId (some u) session_id now
          = (⟨200, session_id, projectId, "Rejoined project " ++ projectId⟩,
              ensure_project db projectId now) := by
        simp [join_project, hs1, hact, hu]
      rw [hjoin]
      refine ⟨rfl, rfl, hlen1, ?_, fun _ => hs1, ?_⟩
      · rw [hs1]; rfl
      · intro u' hequ hneq
        cases hequ
        exact absurd hueq hneq
    · rw [Bool.not_eq_true] at hu
      have hget2 := update_activity_get (ensure_project db projectId now)
        session_id now s hs1
      have hjoin : join_project db projectId (some u) session_id now
          = (⟨200, session_id, projectId, "Rejoined project " ++ projectId⟩,
              (SessionCRUD.update_activity (ensure_project db projectId now)
                session_id now).2) := by
        simp [join_project, hs1, hact, hu]
      rw [hjoin]
      refine ⟨rfl, rfl, ?_, ?_, ?_, ?_⟩
      · rw [update_activity_length, hlen1]
      · rw [hget2]; rfl
      · rintro (h | h)
        · cases h
        · rw [← h] at hu
          simp at hu
      · intro u' hequ hneq
        cases hequ
        exact hget2

/-- Witness for the amended C5 at a concrete store: rejoin of active session
"s" (named "alice") into project "p2" with a different display name "bob". -/
theorem join_project_rejoin_witness :
    (SessionCRUD.get
        ⟨[⟨"p1", 1, 1⟩], [], [⟨"s", "p1", some "alice", 5, 5, true⟩], []⟩ "s"
      = some ⟨"s", "p1", some "alice", 5, 5, true⟩)
    ∧ ((⟨"s", "p1", some "alice", 5, 5, true⟩ : UserSession).is_active = true)
    ∧ ((join_project ⟨[⟨"p1", 1, 1⟩], [], [⟨"s", "p1", some "alice", 5, 5, true⟩], []⟩
          "p2" (some "bob") "s" 10).1.status = 200
      ∧ (join_project ⟨[⟨"p1", 1, 1⟩], [], [⟨"s", "p1", some "alice", 5, 5, true⟩], []⟩
          "p2" (some "bob") "s" 10).1.message = "Rejoined project " ++ "p2"
      ∧ (join_project ⟨[⟨"p1", 1, 1⟩], [], [⟨"s", "p1", some "alice", 5, 5, true⟩], []⟩
          "p2" (some "bob") "s" 10).2.sessions.length
          = (⟨[⟨"p1", 1, 1⟩], [], [⟨"s", "p1", some "alice", 5, 5, true⟩], []⟩
              : ProjectDatabase).sessions.length
      ∧ (SessionCRUD.get
          (join_project ⟨[⟨"p1", 1, 1⟩], [], [⟨"s", "p1", some "alice", 5, 5, true⟩], []⟩
            "p2" (some "bob") "s" 10).2 "s").map (fun x => x.project_id)
          = some "p1"
      ∧ ((some "bob" = none ∨ some "bob" = some "alice") →
          SessionCRUD.get
            (join_project ⟨[⟨"p1", 1, 1⟩], [], [⟨"s", "p1", some "alice", 5, 5, true⟩], []⟩
              "p2" (some "bob") "s" 10).2 "s"
            = some ⟨"s", "p1", some "alice", 5, 5, true⟩)
      ∧ (∀ u, some "bob" = some u → some "alice" ≠ some u →
          SessionCRUD.get
            (join_project ⟨[⟨"p1", 1, 1⟩], [], [⟨"s", "p1", some "alice", 5, 5, true⟩], []⟩
              "p2" (some "bob") "s" 10).2 "s"
            = some ⟨"s", "p1", some "alice", 5, 10, true⟩)) := by
  refine ⟨by decide, by decide, ?_⟩
  exact join_project_rejoin
    ⟨[⟨"p1", 1, 1⟩], [], [⟨"s", "p1", some "alice", 5, 5, true⟩], []⟩
    "p2" (some "bob") "s" 10 ⟨"s", "p1", some "alice", 5, 5, true⟩
    (by decide) (by decide)

/-- `get_document_content` (`main.py`): the project's document text when the
row exists and its stripped content is non-empty, else the empty string. -/
def get_document_content (db : ProjectDatabase) (project_id : String) : String :=
  match DocumentCRUD.get db ("doc_" ++ project_id) with
  | some d => if d.content.trim != "" then d.content else ""
  | none => ""

/-- Response of the `/chat` handler. -/
structure ChatOutcome where
  status : Nat
  response : String
  document : Option String
deriving DecidableEq

/-- The `POST /chat` handler (`main.py`, `chat`).  The Conversation Engine
(`run_agent_conversation`, which calls the external LLM runner) is passed in
as an opaque function: `none` models an engine failure (converted to
HTTPException 500), `some (db, reply)` a successful turn that may have
mutated the stores through the agent tools.  Everything the handler raises
inside its `try` — including its own `HTTPException(401)` for a missing
session — is caught by the blanket `except Exception` and re-raised as
`HTTPException(500, str(e))`, so the client observes status 500. -/
def chat (db : ProjectDatabase)
    (engine : ProjectDatabase → Option (ProjectDatabase × String))
    (message projectId : String) (session_id : Option String) (now : Nat) :
    ChatOutcome × ProjectDatabase :=
  match session_id with
  | none =>
    (⟨500, "401: No active session. Please join a project first.", none⟩, db)
  | some sid =>
    let db1 := (SessionCRUD.update_activity db sid now).2
    let doc_before := get_document_content db1 projectId
    let conversation_id := "conv_" ++ projectId ++ "_" ++ sid
    let db2 :=
      if (ConversationCRUD.get db1 conversation_id).isNone then
        (ConversationCRUD.create db1 conversation_id projectId (some sid) [] now).2
      else db1
    let db3 := (ConversationCRUD.add_message db2 conversation_id "user" message now).2
    match engine db3 with
    | none => (⟨500, "Agent processing error", none⟩, db3)
    | some (db4, ai_response) =>
      let db5 := (ConversationCRUD.add_message db4 conversation_id "assistant"
        ai_response now).2
      let doc_after := get_document_content db5 projectId
      (⟨200, ai_response,
        if doc_after != "" && doc_after != doc_before then some doc_after
        else none⟩, db5)

/-- C6: a `/chat` request without a session identifier does NOT fail with 401.
The handler raises `HTTPException(401, "No active session...")`, but that
raise sits inside the same `try` whose blanket `except Exception` re-raises
every exception — Starlette's `HTTPException` included — as
`HTTPException(500, str(e))`; the client therefore observes HTTP 500 (whose
detail string merely mentions the intended 401), indistinguishable from any
other internal error.  The stores are untouched. -/
theorem chat_without_session_returns_500 (db : ProjectDatabase)
    (engine : ProjectDatabase → Option (ProjectDatabase × String))
    (message projectId : String) (now : Nat) :
    (chat db engine message projectId none now).1.status = 500
    ∧ ¬ ((chat db engine message projectId none now).1.status = 401)
    ∧ (chat db engine message projectId none now).2 = db :=
  ⟨rfl, by simp [chat], rfl⟩

/-- Modelled from the spec: the invitation record (§3 "Invitation": identifier,
token, project, target email, inviter name, created_at, expires_at, is_used
flag, used_at).  The invitation store is missing from
`src/database/database.py` even though `src/api/main.py` calls
`db.invitations`; its record shape and operations are taken from the spec. -/
structure Invitation where
  invitation_id : String
  project_id : String
  email : String
  invitation_token : String
  invited_by : Option String
  created_at_ts : Nat
  expires_at_ts : Nat
  is_used : Bool
  used_at_ts : Option Nat
deriving DecidableEq

namespace InvitationCRUD

/-- Modelled from the spec: `get_by_token(token) -> record | absent` (§4.5). -/
def get_by_token (invites : List Invitation) (token : String) : Option Invitation :=
  invites.find? (fun i => i.invitation_token == token)

/-- Modelled from the spec: `mark_used(invitation_id)`: one-way transition;
only the stored pending -> used transition is written (§4.5). -/
def mark_used (invites : List Invitation) (invitation_id : String) (now : Nat) :
    List Invitation :=
  invites.map (fun i =>
    if i.invitation_id == invitation_id then
      { i with is_used := true, used_at_ts := some now }
    else i)

end InvitationCRUD

/-- Response of the `GET /invitations/{token}/validate` handler. -/
structure ValidateOutcome where
  valid : Bool
  projectId : Option String
  message : String
deriving DecidableEq

/-- The validity logic of the `/invitations/{token}/validate` handler
(`main.py`, `validate_invitation`), evaluated over the spec-modelled
invitation store: unknown token, then `is_used`, then expiry (only checked
when `expires_at_ts` is truthy, and only `current_ts > expires_at_ts` counts
as expired), then existence of the referenced project. -/
def validate_invitation (invites : List Invitation) (db : ProjectDatabase)
    (token : String) (now : Nat) : ValidateOutcome :=
  match InvitationCRUD.get_by_token invites token with
  | none => ⟨false, none, "Invalid invitation token"⟩
  | some invitation =>
    if invitation.is_used then
      ⟨false, none, "This invitation has already been used"⟩
    else if invitation.expires_at_ts != 0 && now > invitation.expires_at_ts then
      ⟨false, none, "This invitation has expired"⟩
    else if (ProjectCRUD.get db invitation.project_id).isNone then
      ⟨false, none, "The project no longer exists"⟩
    else ⟨true, some invitation.project_id, "Invitation is valid"⟩

/-- Counterexample to C1 as stated: an unused invitation for the existing
project "p" with `expires_at_ts = 100`, checked exactly at time 100 — the
handler reports it VALID although the current time is not strictly less than
the expiry, so validity is not "iff current time < expires_at". -/
theorem validate_invitation_boundary_counterexample :
    (validate_invitation [⟨"i", "p", "a", "t", none, 1, 100, false, none⟩]
        ⟨[⟨"p", 1, 1⟩], [], [], []⟩ "t" 100).valid = true
    ∧ ¬ ((100 : Nat) < 100) := by
  decide

/-- C1 (amended): over the spec-modelled invitation store, an invitation with
a set (positive) expiry is reported valid **iff** it is not used AND the
current time is at most (≤, not strictly below) `expires_at_ts` AND the
referenced project still exists; consequently validity is false after
`mark_used`, false once the clock passes the expiry, false if the project was
deleted, and true otherwise.  The check is a pure function of the stores and
the clock — no validity state is cached anywhere. -/
theorem validate_invitation_iff (invites : List Invitation) (db : ProjectDatabase)
    (token : String) (now tu : Nat) (inv : Invitation)
    (hfind : InvitationCRUD.get_by_token invites token = some inv)
    (hexp : 0 < inv.expires_at_ts) :
    ((validate_invitation invites db token now).valid = true
      ↔ (inv.is_used = false ∧ now ≤ inv.expires_at_ts
          ∧ (ProjectCRUD.get db inv.project_id).isSome = true))
    ∧ (validate_invitation
        (InvitationCRUD.mark_used invites inv.invitation_id tu) db token now).valid
        = false := by
  constructor
  · simp only [validate_invitation, hfind]
    by_cases hu : inv.is_used = true
    · simp [hu]
    · rw [Bool.not_eq_true] at hu
      by_cases hlt : inv.expires_at_ts < now
      · have hcond : (inv.expires_at_ts != 0 && decide (now > inv.expires_at_ts))
            = true := by
          simp [hexp.ne', gt_iff_lt, hlt]
        simp [hu, hcond, Nat.not_le.mpr hlt]
      · have hcond : (inv.expires_at_ts != 0 && decide (now > inv.expires_at_ts))
            = false := by
          simp [gt_iff_lt, hlt]
        rcases hp : ProjectCRUD.get db inv.project_id with _ | pr
        · simp [hu, hcond, hp]
        · simp [hu, hcond, hp, Nat.le_of_not_lt hlt]
  · have hpredtok : ∀ i : Invitation,
        ((if i.invitation_id == inv.invitation_id then
            { i with is_used := true, used_at_ts := some tu } else i).invitation_token
          == token) = (i.invitation_token == token) := by
      intro i
      by_cases h : (i.invitation_id == inv.invitation_id) = true <;> simp [h]
    have hfind' : invites.find? (fun i => i.invitation_token == token) = some inv := hfind
    have hget : InvitationCRUD.get_by_token
        (InvitationCRUD.mark_used invites inv.invitation_id tu) token
        = some { inv with is_used := true, used_at_ts := some tu } := by
      unfold InvitationCRUD.get_by_token InvitationCRUD.mark_used
      rw [find?_map_congr _ _ hpredtok, hfind', Option.map_some']
      simp
    simp [validate_invitation, hget]

/-- Witness for the amended C1 at a concrete invitation and store. -/
theorem validate_invitation_iff_witness :
    (InvitationCRUD.get_by_token [⟨"i", "p", "a", "t", none, 1, 100, false, none⟩] "t"
        = some ⟨"i", "p", "a", "t", none, 1, 100, false, none⟩)
    ∧ (0 : Nat) < 100
    ∧ (((validate_invitation [⟨"i", "p", "a", "t", none, 1, 100, false, none⟩]
          ⟨[⟨"p", 1, 1⟩], [], [], []⟩ "t" 50).valid = true
        ↔ (false = false ∧ (50 : Nat) ≤ 100
            ∧ (ProjectCRUD.get ⟨[⟨"p", 1, 1⟩], [], [], []⟩ "p").isSome = true))
      ∧ (validate_invitation
          (InvitationCRUD.mark_used [⟨"i", "p", "a", "t", none, 1, 100, false, none⟩]
            "i" 60) ⟨[⟨"p", 1, 1⟩], [], [], []⟩ "t" 50).valid = false) :=
  ⟨by decide, by decide,
    validate_invitation_iff [⟨"i", "p", "a", "t", none, 1, 100, false, none⟩]
      ⟨[⟨"p", 1, 1⟩], [], [], []⟩ "t" 50 60
      ⟨"i", "p", "a", "t", none, 1, 100, false, none⟩ (by decide) (by decide)⟩

/-- One entry of the flattened history view built by the
`/history/{project_id}` handler (`main.py`, `get_history`). -/
structure HistoryEntry where
  role : String
  content : String
  timestamp : Nat
  conversationId : String
  userName : Option String
deriving DecidableEq

/-- The flattening loop of `get_history`: walk the project's conversations in
table (creation) order, skip conversations with an empty message list, resolve
the display name from the conversation's originating session, and emit the
messages in stored (append) order.  Every stored message carries a timestamp
(they are all written by `add_message`), so `msg.get("timestamp", ..)` is the
message's own timestamp. -/
def flatten_history (db : ProjectDatabase) (project_id : String) :
    List HistoryEntry :=
  (ConversationCRUD.get_by_project db project_id).foldl (fun acc conv =>
    if conv.messages.isEmpty then acc
    else
      let user_name : Option String :=
        match conv.session_id with
        | none => none
        | some sid => (SessionCRUD.get db sid).bind (fun s => s.user_name)
      acc ++ conv.messages.map (fun m =>
        ⟨m.role, m.content, m.timestamp, conv.conversation_id,
          if m.role == "user" then user_name else none⟩)) []

/-- The comparator of `history.sort(key=lambda x: x["timestamp"])`. -/
def historyLE (a b : HistoryEntry) : Bool :=
  a.timestamp ≤ b.timestamp

/-- The `/history/{project_id}` handler (`main.py`, `get_history`): flattened
history sorted stably by message timestamp (Python `list.sort` is a stable
sort, modelled by `List.mergeSort`), the project's document content (empty
string if the row is absent), and the active sessions. -/
def get_history (db : ProjectDatabase) (project_id : String) :
    List HistoryEntry × String × List UserSession :=
  let sorted := (flatten_history db project_id).mergeSort historyLE
  let document :=
    match DocumentCRUD.get db ("doc_" ++ project_id) with
    | some d => d.content
    | none => ""
  (sorted, document, SessionCRUD.get_active_by_project db project_id)

theorem historyLE_trans (a b c : HistoryEntry) :
    historyLE a b → historyLE b c → historyLE a c := by
  simp only [historyLE, decide_eq_true_eq]
  omega

theorem historyLE_total (a b : HistoryEntry) :
    historyLE a b || historyLE b a := by
  simp only [historyLE, Bool.or_eq_true, decide_eq_true_eq]
  omega

/-- C9: the per-project history view is sorted by message timestamp, is a
permutation of the flattened message list, and is a stable sort of it: for
every timestamp value, the entries carrying that timestamp appear exactly in
flattening order — conversation creation (table) order first, append order
within a conversation — so a fixed stored state always yields this one output
sequence. -/
theorem get_history_sorted_deterministic (db : ProjectDatabase) (pid : String) :
    List.Pairwise (fun a b : HistoryEntry => a.timestamp ≤ b.timestamp)
        (get_history db pid).1
    ∧ (get_history db pid).1.Perm (flatten_history db pid)
    ∧ ∀ t : Nat, (get_history db pid).1.filter (fun e => e.timestamp == t)
        = (flatten_history db pid).filter (fun e => e.timestamp == t) := by
  have hfst : (get_history db pid).1 = (flatten_history db pid).mergeSort historyLE := rfl
  rw [hfst]
  refine ⟨?_, List.mergeSort_perm _ _, ?_⟩
  · have hs := @List.sorted_mergeSort HistoryEntry historyLE historyLE_trans
      historyLE_total (flatten_history db pid)
    exact hs.imp (by intro a b hab; simpa [historyLE] using hab)
  · intro t
    have hcsub : List.Sublist
        ((flatten_history db pid).filter (fun e => e.timestamp == t))
        (flatten_history db pid) := List.filter_sublist _
    have hcall : ∀ e ∈ (flatten_history db pid).filter (fun e => e.timestamp == t),
        (e.timestamp == t) = true := fun e he => (List.mem_filter.mp he).2
    have hcpair : ((flatten_history db pid).filter (fun e => e.timestamp == t)).Pairwise
        (fun a b => historyLE a b) := by
      apply List.pairwise_of_forall_mem_list
      intro a ha b hb
      have hat : a.timestamp = t := by simpa using hcall a ha
      have hbt : b.timestamp = t := by simpa using hcall b hb
      simp [historyLE, hat, hbt]
    have hsub := List.sublist_mergeSort historyLE_trans historyLE_total hcpair hcsub
    have hperm : List.Perm
        (((flatten_history db pid).mergeSort historyLE).filter
          (fun e => e.timestamp == t))
        ((flatten_history db pid).filter (fun e => e.timestamp == t)) :=
      (List.mergeSort_perm (flatten_history db pid) historyLE).filter _
    have hsub2 : List.Sublist
        ((flatten_history db pid).filter (fun e => e.timestamp == t))
        (((flatten_history db pid).mergeSort historyLE).filter
          (fun e => e.timestamp == t)) := by
      have hstep := hsub.filter (fun e => e.timestamp == t)
      rwa [List.filter_eq_self.mpr hcall] at hstep
    exact (hsub2.eq_of_length hperm.length_eq.symm).symm

/-- Witness for C8 at a concrete store holding one conversation that already
contains one message. -/
theorem add_message_append_order_witness :
    (ConversationCRUD.get
        ⟨[], [], [], [⟨"c1", "p1", some "s1", 2, [⟨"user", "old", 2⟩], true⟩]⟩ "c1"
      = some ⟨"c1", "p1", some "s1", 2, [⟨"user", "old", 2⟩], true⟩)
    ∧ (3 : Nat) ≤ 4 ∧ (4 : Nat) ≤ 4
    ∧ (ConversationCRUD.get
        ((ConversationCRUD.add_message
          ((ConversationCRUD.add_message
            ((ConversationCRUD.add_message
              ⟨[], [], [], [⟨"c1", "p1", some "s1", 2, [⟨"user", "old", 2⟩], true⟩]⟩
              "c1" "user" "m1" 3).2)
            "c1" "assistant" "m2" 4).2)
          "c1" "user" "m3" 4).2) "c1"
      = some ⟨"c1", "p1", some "s1", 2,
          [⟨"user", "old", 2⟩, ⟨"user", "m1", 3⟩, ⟨"assistant", "m2", 4⟩,
            ⟨"user", "m3", 4⟩], true⟩
    ∧ List.Chain' (· ≤ ·) [3, 4, 4]) :=
  ⟨by decide, by decide, by decide,
    add_message_append_order
      ⟨[], [], [], [⟨"c1", "p1", some "s1", 2, [⟨"user", "old", 2⟩], true⟩]⟩
      "c1" "user" "m1" "assistant" "m2" "user" "m3" 3 4 4
      ⟨"c1", "p1", some "s1", 2, [⟨"user", "old", 2⟩], true⟩
      (by decide) (by decide) (by decide)⟩

/-- The Tenant Context Bridge (`naii_agents/tools.py`):
`_project_context = threading.local()` is a module-level object holding ONE
binding slot per OS thread, written by `set_project_context(project_id, db)`
and read back by the agent tools via `get_project_context()`.  Modelled as an
association list from executing-thread id to the bound project id (the db
handle stored alongside is the same module-level `db` in every call, so only
the project id is tracked); a new bind for a thread shadows that thread's
earlier one, exactly like assigning the attribute. -/
structure TenantContext where
  slots : List (Nat × String)
deriving DecidableEq

/-- `set_project_context(project_id, db)` executed on thread `tid`. -/
def set_project_context (ctx : TenantContext) (tid : Nat) (project_id : String) :
    TenantContext :=
  ⟨(tid, project_id) :: ctx.slots⟩

/-- `get_project_context()` executed on thread `tid`. -/
def get_project_context (ctx : TenantContext) (tid : Nat) : Option String :=
  (ctx.slots.find? (fun p => p.1 == tid)).map (fun p => p.2)

/-- The `write_doc` agent tool (`tools.py`): replaces the entire document of
whatever project is bound on the EXECUTING THREAD — update the row if it
exists, create it otherwise. -/
def write_doc (ctx : TenantContext) (tid : Nat) (db : ProjectDatabase)
    (content : String) (now : Nat) : String × ProjectDatabase :=
  match get_project_context ctx tid with
  | none => ("Error: No project context available for document update", db)
  | some project_id =>
    let document_id := "doc_" ++ project_id
    let r := DocumentCRUD.update_content db document_id content now
    if r.1 then ("Document updated successfully.", r.2)
    else
      let r2 := DocumentCRUD.create r.2 document_id content project_id now
      if r2.1 then ("Document updated successfully.", r2.2)
      else ("Error: Failed to create new document", r2.2)

/-- The `read_current_doc` agent tool (`tools.py`). -/
def read_current_doc (ctx : TenantContext) (tid : Nat) (db : ProjectDatabase) :
    String :=
  match get_project_context ctx tid with
  | none => "document could not be found"
  | some project_id =>
    match DocumentCRUD.get db ("doc_" ++ project_id) with
    | some d => if d.content.trim != "" then d.content
                else "document could not be found"
    | none => "document could not be found"

/-- Two projects, each with an (empty) document row. -/
def dbBridgeDemo : ProjectDatabase :=
  ⟨[⟨"p1", 1, 1⟩, ⟨"p2", 1, 1⟩],
    [⟨"doc_p1", "", 1, "p1"⟩, ⟨"doc_p2", "", 1, "p2"⟩], [], []⟩

/-- Counterexample to C4 as stated: FastAPI executes `async def` handlers on
the single event-loop thread, so two concurrent `/chat` requests both run
`set_project_context` on the same thread id (0 here).  Request A binds "p1";
while A awaits the LLM, request B binds "p2"; when A's engine-side `write_doc`
then runs, it sees binding "p2" and writes A's content into PROJECT P2's
document, leaving p1's untouched — a cross-project write through the bridge.
`threading.local` is per-thread state, not per-call-context state. -/
theorem tenant_context_counterexample :
    (get_project_context
        (set_project_context (set_project_context ⟨[]⟩ 0 "p1") 0 "p2") 0
      = some "p2")
    ∧ ((DocumentCRUD.get
        (write_doc (set_project_context (set_project_context ⟨[]⟩ 0 "p1") 0 "p2")
          0 dbBridgeDemo "A text" 7).2 "doc_p2").map (fun d => d.content)
      = some "A text")
    ∧ ((DocumentCRUD.get
        (write_doc (set_project_context (set_project_context ⟨[]⟩ 0 "p1") 0 "p2")
          0 dbBridgeDemo "A text" 7).2 "doc_p1").map (fun d => d.content)
      = some "") := by
  decide

/-- C4 (amended): the bridge's binding is per-OS-thread, not per-call-context.
Isolation therefore holds exactly when the two concurrent requests execute on
DIFFERENT threads: a later bind by request B on thread `tidB` neither changes
what request A's thread `tidA` reads back nor which document A's engine-side
`write_doc` targets.  (On a shared thread — FastAPI's event loop for async
handlers — the counterexample above shows cross-project writes occur.) -/
theorem tenant_context_per_thread (ctx : TenantContext) (tidA tidB : Nat)
    (pA pB content : String) (db : ProjectDatabase) (now : Nat)
    (h : tidA ≠ tidB) :
    get_project_context
        (set_project_context (set_project_context ctx tidA pA) tidB pB) tidA
      = some pA
    ∧ get_project_context
        (set_project_context (set_project_context ctx tidA pA) tidB pB) tidB
      = some pB
    ∧ write_doc (set_project_context (set_project_context ctx tidA pA) tidB pB)
        tidA db content now
      = write_doc (set_project_context ctx tidA pA) tidA db content now := by
  have g2 : get_project_context (set_project_context ctx tidA pA) tidA = some pA := by
    unfold get_project_context set_project_context
    rw [List.find?_cons_of_pos _ (by simp)]
    rfl
  have g1 : get_project_context
      (set_project_context (set_project_context ctx tidA pA) tidB pB) tidA
      = some pA := by
    unfold get_project_context set_project_context
    rw [List.find?_cons_of_neg _ (by simp [Ne.symm h]),
      List.find?_cons_of_pos _ (by simp)]
    rfl
  refine ⟨g1, ?_, ?_⟩
  · unfold get_project_context set_project_context
    rw [List.find?_cons_of_pos _ (by simp)]
    rfl
  · rw [write_doc, write_doc, g1, g2]

/-- Witness for the amended C4: requests on distinct threads 0 and 1. -/
theorem tenant_context_per_thread_witness :
    (0 : Nat) ≠ 1
    ∧ (get_project_context
          (set_project_context (set_project_context ⟨[]⟩ 0 "p1") 1 "p2") 0
        = some "p1"
      ∧ get_project_context
          (set_project_context (set_project_context ⟨[]⟩ 0 "p1") 1 "p2") 1
        = some "p2"
      ∧ write_doc (set_project_context (set_project_context ⟨[]⟩ 0 "p1") 1 "p2")
          0 dbBridgeDemo "A text" 7
        = write_doc (set_project_context ⟨[]⟩ 0 "p1") 0 dbBridgeDemo "A text" 7) :=
  ⟨by decide,
    tenant_context_per_thread ⟨[]⟩ 0 1 "p1" "p2" "A text" dbBridgeDemo 7 (by decide)⟩

/-- A Python exception as observed at a handler's `except` boundary: either a
deliberately raised `fastapi.HTTPException` (which still subclasses
`Exception`) or an `AttributeError` from dereferencing a store that
`ProjectDatabase` does not define. -/
inductive PyError where
  | httpException (status : Nat) (detail : String)
  | attributeError (msg : String)
deriving DecidableEq

/-- The `try` body of the `POST /projects/{project_id}/upload` handler
(`main.py`, `upload_document`): session guard (401), ownership guard (403),
size guard (413, limit 10 MiB), content-type guard (400), then
`db.uploaded_documents.create(...)` — but `ProjectDatabase` has no
`uploaded_documents` attribute, so this line raises `AttributeError` and the
subsequent `update_activity` is never reached.  File parsing is abstracted to
the two booleans the guards inspect. -/
def upload_document_body (db : ProjectDatabase) (project_id : String)
    (session_id : Option String) (fileSize : Nat) (isPdf decodesUtf8 : Bool) :
    Except PyError (Nat × ProjectDatabase) :=
  match session_id with
  | none => .error (.httpException 401 "No active session. Please join a project first.")
  | some sid =>
    match SessionCRUD.get db sid with
    | none => .error (.httpException 403 "Session does not belong to this project")
    | some s =>
      if s.project_id != project_id then
        .error (.httpException 403 "Session does not belong to this project")
      else if fileSize > 10 * 1024 * 1024 then
        .error (.httpException 413 "File too large. Maximum size is 10MB.")
      else if !isPdf && !decodesUtf8 then
        .error (.httpException 400 "File must be a text file or PDF")
      else
        .error (.attributeError
          "ProjectDatabase object has no attribute uploaded_documents")

/-- `upload_document` with its blanket `except Exception` arm: every raise —
the guards' own HTTPExceptions included — surfaces as HTTP 500, and the
stores are returned unchanged. -/
def upload_document (db : ProjectDatabase) (project_id : String)
    (session_id : Option String) (fileSize : Nat) (isPdf decodesUtf8 : Bool) :
    Nat × ProjectDatabase :=
  match upload_document_body db project_id session_id fileSize isPdf decodesUtf8 with
  | .ok r => r
  | .error _ => (500, db)

/-- The `try` body of `POST /projects/{project_id}/invite` (`main.py`,
`invite_to_project`): session guard, ownership guard, project-existence guard,
then `db.invitations.create(...)` — no `invitations` attribute exists, so the
line raises `AttributeError` before any email is attempted. -/
def invite_to_project_body (db : ProjectDatabase) (project_id : String)
    (session_id : Option String) (email : String) (inviterName : Option String) :
    Except PyError (Nat × ProjectDatabase) :=
  match session_id with
  | none => .error (.httpException 401 "No active session. Please join a project first.")
  | some sid =>
    match SessionCRUD.get db sid with
    | none => .error (.httpException 403 "Session does not belong to this project")
    | some s =>
      if s.project_id != project_id then
        .error (.httpException 403 "Session does not belong to this project")
      else if (ProjectCRUD.get db project_id).isNone then
        .error (.httpException 404 "Project not found")
      else
        .error (.attributeError "ProjectDatabase object has no attribute invitations")

/-- `invite_to_project` with its blanket `except Exception` arm. -/
def invite_to_project (db : ProjectDatabase) (project_id : String)
    (session_id : Option String) (email : String) (inviterName : Option String) :
    Nat × ProjectDatabase :=
  match invite_to_project_body db project_id session_id email inviterName with
  | .ok r => r
  | .error _ => (500, db)

/-- The `try` body of `GET /invitations/{token}/validate` as it actually runs
in this program: the first statement `db.invitations.get_by_token(token)`
raises `AttributeError` — none of the validity logic is reachable. -/
def validate_invitation_endpoint_body (db : ProjectDatabase) (token : String) :
    Except PyError (Nat × ProjectDatabase) :=
  .error (.attributeError "ProjectDatabase object has no attribute invitations")

/-- `validate_invitation` endpoint with its `except Exception` arm. -/
def validate_invitation_endpoint (db : ProjectDatabase) (token : String) :
    Nat × ProjectDatabase :=
  match validate_invitation_endpoint_body db token with
  | .ok r => r
  | .error _ => (500, db)

/-- The `try` body of `POST /invitations/{token}/accept` (`main.py`,
`accept_invitation`): its first statement dereferences `db.invitations`. -/
def accept_invitation_body (db : ProjectDatabase) (token session_id : String) :
    Except PyError (Nat × ProjectDatabase) :=
  .error (.attributeError "ProjectDatabase object has no attribute invitations")

/-- `accept_invitation` endpoint with its `except Exception` arm. -/
def accept_invitation (db : ProjectDatabase) (token session_id : String) :
    Nat × ProjectDatabase :=
  match accept_invitation_body db token session_id with
  | .ok r => r
  | .error _ => (500, db)

/-- The `try` body of `GET /projects/{project_id}/uploads` (`main.py`,
`get_uploaded_documents`): guards, then `db.uploaded_documents.get_by_project`. -/
def get_uploaded_documents_body (db : ProjectDatabase) (project_id : String)
    (session_id : Option String) : Except PyError (Nat × ProjectDatabase) :=
  match session_id with
  | none => .error (.httpException 401 "No active session. Please join a project first.")
  | some sid =>
    match SessionCRUD.get db sid with
    | none => .error (.httpException 403 "Session does not belong to this project")
    | some s =>
      if s.project_id != project_id then
        .error (.httpException 403 "Session does not belong to this project")
      else
        .error (.attributeError
          "ProjectDatabase object has no attribute uploaded_documents")

/-- `get_uploaded_documents` with its `except Exception` arm. -/
def get_uploaded_documents (db : ProjectDatabase) (project_id : String)
    (session_id : Option String) : Nat × ProjectDatabase :=
  match get_uploaded_documents_body db project_id session_id with
  | .ok r => r
  | .error _ => (500, db)

/-- The `try` body of `GET /uploads/{upload_id}` (`main.py`,
`get_uploaded_document_content`): session presence guard, then
`db.uploaded_documents.get(upload_id)` raises before any ownership check. -/
def get_uploaded_document_content_body (db : ProjectDatabase) (upload_id : String)
    (session_id : Option String) : Except PyError (Nat × ProjectDatabase) :=
  match session_id with
  | none => .error (.httpException 401 "No active session. Please join a project first.")
  | some _ =>
    .error (.attributeError "ProjectDatabase object has no attribute uploaded_documents")

/-- `get_uploaded_document_content` with its `except Exception` arm. -/
def get_uploaded_document_content (db : ProjectDatabase) (upload_id : String)
    (session_id : Option String) : Nat × ProjectDatabase :=
  match get_uploaded_document_content_body db upload_id session_id with
  | .ok r => r
  | .error _ => (500, db)

/-- The `try` body of `DELETE /uploads/{upload_id}` (`main.py`,
`delete_uploaded_document`): same shape as content retrieval. -/
def delete_uploaded_document_body (db : ProjectDatabase) (upload_id : String)
    (session_id : Option String) : Except PyError (Nat × ProjectDatabase) :=
  match session_id with
  | none => .error (.httpException 401 "No active session. Please join a project first.")
  | some _ =>
    .error (.attributeError "ProjectDatabase object has no attribute uploaded_documents")

/-- `delete_uploaded_document` with its `except Exception` arm. -/
def delete_uploaded_document (db : ProjectDatabase) (upload_id : String)
    (session_id : Option String) : Nat × ProjectDatabase :=
  match delete_uploaded_document_body db upload_id session_id with
  | .ok r => r
  | .error _ => (500, db)

/-- The `try` body of `GET /projects/{project_id}/invitations` (`main.py`,
`get_project_invitations`): guards, then `db.invitations.get_by_project`. -/
def get_project_invitations_body (db : ProjectDatabase) (project_id : String)
    (session_id : Option String) : Except PyError (Nat × ProjectDatabase) :=
  match session_id with
  | none => .error (.httpException 401 "No active session. Please join a project first.")
  | some sid =>
    match SessionCRUD.get db sid with
    | none => .error (.httpException 403 "Session does not belong to this project")
    | some s =>
      if s.project_id != project_id then
        .error (.httpException 403 "Session does not belong to this project")
      else
        .error (.attributeError "ProjectDatabase object has no attribute invitations")

/-- `get_project_invitations` with its `except Exception` arm. -/
def get_project_invitations (db : ProjectDatabase) (project_id : String)
    (session_id : Option String) : Nat × ProjectDatabase :=
  match get_project_invitations_body db project_id session_id with
  | .ok r => r
  | .error _ => (500, db)

/-- C10: `ProjectDatabase` exposes only the four stores `projects`,
`documents`, `sessions`, `conversations`; every handler path that would
dereference `db.uploaded_documents` or `db.invitations` — upload, upload
listing/retrieval/deletion, invite creation, invitation validation,
acceptance, and listing — ends in an exception that the blanket `except
Exception` surfaces as HTTP 500, with the stores returned unchanged: no
upload or invitation record is ever persisted, for any input.  The last two
conjuncts exhibit the `AttributeError` itself on inputs that pass every
guard. -/
theorem missing_stores_always_500 :
    (∀ db project_id session_id fileSize isPdf decodesUtf8,
      upload_document db project_id session_id fileSize isPdf decodesUtf8 = (500, db))
    ∧ (∀ db project_id session_id email inviterName,
      invite_to_project db project_id session_id email inviterName = (500, db))
    ∧ (∀ db token, validate_invitation_endpoint db token = (500, db))
    ∧ (∀ db token session_id, accept_invitation db token session_id = (500, db))
    ∧ (∀ db project_id session_id,
      get_uploaded_documents db project_id session_id = (500, db))
    ∧ (∀ db upload_id session_id,
      get_uploaded_document_content db upload_id session_id = (500, db))
    ∧ (∀ db upload_id session_id,
      delete_uploaded_document db upload_id session_id = (500, db))
    ∧ (∀ db project_id session_id,
      get_project_invitations db project_id session_id = (500, db))
    ∧ upload_document_body ⟨[⟨"p", 1, 1⟩], [], [⟨"s", "p", none, 1, 1, true⟩], []⟩
        "p" (some "s") 0 true true
        = .error (.attributeError
            "ProjectDatabase object has no attribute uploaded_documents")
    ∧ invite_to_project_body ⟨[⟨"p", 1, 1⟩], [], [⟨"s", "p", none, 1, 1, true⟩], []⟩
        "p" (some "s") "a" none
        = .error (.attributeError "ProjectDatabase object has no attribute invitations") := by
  refine ⟨?_, ?_, ?_, ?_, ?_, ?_, ?_, ?_, rfl, rfl⟩
  · intro db project_id session_id fileSize isPdf decodesUtf8
    cases session_id with
    | none => rfl
    | some sid =>
      simp only [upload_document, upload_document_body]
      cases h : SessionCRUD.get db sid with
      | none => rfl
      | some s =>
        by_cases h1 : (s.project_id != project_id) = true
        · simp [h1]
        · by_cases h2 : fileSize > 10 * 1024 * 1024
          · simp [h1, h2]
          · by_cases h3 : (!isPdf && !decodesUtf8) = true
            · simp [h1, h2, h3]
            · simp [h1, h2, h3]
  · intro db project_id session_id email inviterName
    cases session_id with
    | none => rfl
    | some sid =>
      simp only [invite_to_project, invite_to_project_body]
      cases h : SessionCRUD.get db sid with
      | none => rfl
      | some s =>
        by_cases h1 : (s.project_id != project_id) = true
        · simp [h1]
        · by_cases h2 : (ProjectCRUD.get db project_id).isNone = true
          · simp [h1, h2]
          · simp [h1, h2]
  · intro db token
    rfl
  · intro db token session_id
    rfl
  · intro db project_id session_id
    cases session_id with
    | none => rfl
    | some sid =>
      simp only [get_uploaded_documents, get_uploaded_documents_body]
      cases h : SessionCRUD.get db sid with
      | none => rfl
      | some s =>
        by_cases h1 : (s.project_id != project_id) = true
        · simp [h1]
        · simp [h1]
  · intro db upload_id session_id
    cases session_id with
    | none => rfl
    | some sid => rfl
  · intro db upload_id session_id
    cases session_id with
    | none => rfl
    | some sid => rfl
  · intro db project_id session_id
    cases session_id with
    | none => rfl
    | some sid =>
      simp only [get_project_invitations, get_project_invitations_body]
      cases h : SessionCRUD.get db sid with
      | none => rfl
      | some s =>
        by_cases h1 : (s.project_id != project_id) = true
        · simp [h1]
        · simp [h1]
